import Mathlib

/-
Shallow embedding of the per-connection protocol engine of the cxo repository
(src/node/conn.go and the client file src/unnamed/part_000), together with
theorems checking the specification's statements against it.

Modelling conventions:
* machine bytes are `Nat` values (each < 256 where produced by the encoders);
* `cipher.PubKey` values are modelled as `Nat`, the zero (blank) key as `0`;
* `uint32` arithmetic is `Nat` arithmetic taken `% 4294967296` where the Go
  code can overflow;
* Go maps keyed by public key are association lists `List (Nat × _)`;
* fallible Go functions return `Option`/`Except`;
* blocking calls into external collaborators (the skyobject container, the
  owning node) take the collaborator's answer as an explicit argument.
-/

namespace Cxo

/-- One 32-bit little-endian value from four bytes. -/
def le32 (b0 b1 b2 b3 : Nat) : Nat :=
  b0 + 256 * b1 + 65536 * b2 + 16777216 * b3

/-- `binary.LittleEndian.PutUint32`: the four little-endian bytes of `n`. -/
def enc32 (n : Nat) : List Nat :=
  [n % 256, n / 256 % 256, n / 65536 % 256, n / 16777216 % 256]

/-- `binary.LittleEndian.Uint32` on the first four bytes of a byte slice. -/
def uint32le (raw : List Nat) : Nat :=
  le32 (raw.getD 0 0) (raw.getD 1 0) (raw.getD 2 0) (raw.getD 3 0)

/-- The closed, tagged set of protocol message variants (`node/msg`), fields
as listed in the spec's variant table: `sub`/`unsub` carry a feed key,
`list` a feed list, `err` a message string, `root` the announced head and
signed value, `rqObject` an object key and prefetch flag, and so on. -/
inductive Msg where
  | sub (feed : Nat)
  | unsub (feed : Nat)
  | rqList
  | list (feeds : List Nat)
  | ok
  | err (e : String)
  | root (feed nonce seq sig : Nat) (val : List Nat)
  | rootDone (feed nonce seq : Nat)
  | rootErr (feed nonce seq : Nat) (reason : String)
  | rqObject (key : Nat) (prefetch : Bool)
  | object (val : List Nat) (vals : List (List Nat))
  | rqPreview (feed : Nat)
deriving DecidableEq

/-- Bytes of a string (for the `err`/`rootErr` payloads). -/
def strBytes (s : String) : List Nat :=
  s.toList.map Char.toNat

/-- String from bytes, inverse of `strBytes` on valid scalar values. -/
def bytesStr (bs : List Nat) : String :=
  String.mk (bs.map Char.ofNat)

/-- Length-prefixed byte block. -/
def encBytes (v : List Nat) : List Nat :=
  enc32 v.length ++ v

/-- Length-prefixed list of 32-bit keys. -/
def encKeys (l : List Nat) : List Nat :=
  enc32 l.length ++ l.foldr (fun k acc => enc32 k ++ acc) []

/-- Length-prefixed list of length-prefixed byte blocks. -/
def encVals (l : List (List Nat)) : List Nat :=
  enc32 l.length ++ l.foldr (fun v acc => encBytes v ++ acc) []

/-- Modelled from the spec: `msg.Encode`, the "type-tagged, variant-specific
encoding of one Message". The `node/msg` package is not under `src/`; the
spec fixes the tagged layout but not the field widths, so identifiers and
lengths are encoded here as 32-bit little-endian values. -/
def Msg.encode : Msg → List Nat
  | .sub f => 1 :: enc32 f
  | .unsub f => 2 :: enc32 f
  | .rqList => [3]
  | .list ks => 4 :: encKeys ks
  | .ok => [5]
  | .err e => 6 :: encBytes (strBytes e)
  | .root f nonce seq sig val =>
      7 :: (enc32 f ++ enc32 nonce ++ enc32 seq ++ enc32 sig ++ encBytes val)
  | .rootDone f nonce seq => 8 :: (enc32 f ++ enc32 nonce ++ enc32 seq)
  | .rootErr f nonce seq reason =>
      9 :: (enc32 f ++ enc32 nonce ++ enc32 seq ++ encBytes (strBytes reason))
  | .rqObject key prefetch => 10 :: (enc32 key ++ [if prefetch then 1 else 0])
  | .object val vals => 11 :: (encBytes val ++ encVals vals)
  | .rqPreview f => 12 :: enc32 f

/-- Read one 32-bit little-endian value, returning the rest of the input. -/
def read32 : List Nat → Option (Nat × List Nat)
  | b0 :: b1 :: b2 :: b3 :: r => some (le32 b0 b1 b2 b3, r)
  | _ => none

/-- Read exactly `n` bytes. -/
def readN : Nat → List Nat → Option (List Nat × List Nat)
  | 0, r => some ([], r)
  | _ + 1, [] => none
  | n + 1, b :: r =>
    match readN n r with
    | some (xs, r2) => some (b :: xs, r2)
    | none => none

/-- Read one length-prefixed byte block. -/
def readBytes (r : List Nat) : Option (List Nat × List Nat) :=
  match read32 r with
  | some (n, r1) => readN n r1
  | none => none

/-- Read `n` 32-bit keys. -/
def readKeys : Nat → List Nat → Option (List Nat × List Nat)
  | 0, r => some ([], r)
  | n + 1, r =>
    match read32 r with
    | some (k, r1) =>
      match readKeys n r1 with
      | some (ks, r2) => some (k :: ks, r2)
      | none => none
    | none => none

/-- Read `n` length-prefixed byte blocks. -/
def readVals : Nat → List Nat → Option (List (List Nat) × List Nat)
  | 0, r => some ([], r)
  | n + 1, r =>
    match readBytes r with
    | some (v, r1) =>
      match readVals n r1 with
      | some (vs, r2) => some (v :: vs, r2)
      | none => none
    | none => none

/-- Modelled from the spec: `msg.Decode` — decodes the tag byte and the
variant-specific fields, failing on an unknown tag or a malformed payload
(the whole payload must be consumed). -/
def decodeMsg : List Nat → Option Msg
  | 1 :: r => match read32 r with
    | some (f, []) => some (.sub f)
    | _ => none
  | 2 :: r => match read32 r with
    | some (f, []) => some (.unsub f)
    | _ => none
  | [3] => some .rqList
  | 4 :: r => match read32 r with
    | some (n, r1) => match readKeys n r1 with
      | some (ks, []) => some (.list ks)
      | _ => none
    | _ => none
  | [5] => some .ok
  | 6 :: r => match readBytes r with
    | some (bs, []) => some (.err (bytesStr bs))
    | _ => none
  | 7 :: r => match read32 r with
    | some (f, r1) => match read32 r1 with
      | some (nonce, r2) => match read32 r2 with
        | some (seq, r3) => match read32 r3 with
          | some (sig, r4) => match readBytes r4 with
            | some (val, []) => some (.root f nonce seq sig val)
            | _ => none
          | _ => none
        | _ => none
      | _ => none
    | _ => none
  | 8 :: r => match read32 r with
    | some (f, r1) => match read32 r1 with
      | some (nonce, r2) => match read32 r2 with
        | some (seq, []) => some (.rootDone f nonce seq)
        | _ => none
      | _ => none
    | _ => none
  | 9 :: r => match read32 r with
    | some (f, r1) => match read32 r1 with
      | some (nonce, r2) => match read32 r2 with
        | some (seq, r3) => match readBytes r3 with
          | some (bs, []) => some (.rootErr f nonce seq (bytesStr bs))
          | _ => none
        | _ => none
      | _ => none
    | _ => none
  | 10 :: r => match read32 r with
    | some (key, [p]) =>
      if p = 0 then some (.rqObject key false)
      else if p = 1 then some (.rqObject key true)
      else none
    | _ => none
  | 11 :: r => match readBytes r with
    | some (val, r1) => match read32 r1 with
      | some (n, r2) => match readVals n r2 with
        | some (vs, []) => some (.object val vs)
        | _ => none
      | _ => none
    | _ => none
  | 12 :: r => match read32 r with
    | some (f, []) => some (.rqPreview f)
    | _ => none
  | _ => none

/-!
Frame codec (`Conn.encodeMsg` and `Conn.decodeRaw` of src/node/conn.go).
-/

/-- `Conn.encodeMsg` of src/node/conn.go, statement by statement:
`raw = make([]byte, 8, 8+len(em))` — eight zero bytes;
`binary.LittleEndian.PutUint32(raw, seq)` — writes bytes 0–3;
`binary.LittleEndian.PutUint32(raw[:4], rseq)` — the destination slice
`raw[:4]` aliases bytes 0–3 of `raw`, so this second write lands on bytes
0–3 again (not on bytes 4–7) and bytes 4–7 stay zero;
`raw = append(raw, em...)`. -/
def encodeMsg (seq rseq : Nat) (m : Msg) : List Nat :=
  let raw0 : List Nat := List.replicate 8 0
  let raw1 := enc32 seq ++ raw0.drop 4
  let raw2 := (enc32 rseq ++ (raw1.take 4).drop 4) ++ raw1.drop 4
  raw2 ++ m.encode

/-- `Conn.decodeRaw` of src/node/conn.go: fewer than 9 bytes is an error;
otherwise `seq` is read from bytes 0–3, `rseq` from bytes 4–7, and the rest
is handed to `msg.Decode`. -/
def decodeRaw (raw : List Nat) : Option (Nat × Nat × Msg) :=
  if raw.length < 9 then none
  else
    let seq := uint32le raw
    let r1 := raw.drop 4
    let rseq := uint32le r1
    let r2 := r1.drop 4
    (decodeMsg r2).map (fun m => (seq, rseq, m))

/-!
Connection state and sequence numbers.
-/

/-- `connFeed` of src/node/conn.go: the per-feed state holding this
connection's Filling Operations (`heads`, here just the head nonces). -/
structure ConnFeed where
  heads : List Nat
deriving DecidableEq

/-- The mutable part of a `Conn` the verified operations touch: the feed
map (an association list keyed by feed public key) and the `seq` counter. -/
structure ConnState where
  feeds : List (Nat × ConnFeed)
  seq : Nat
deriving DecidableEq

/-- Go map lookup `c.feeds[feed]`. -/
def lookupFeed : List (Nat × ConnFeed) → Nat → Option ConnFeed
  | [], _ => none
  | (k, v) :: r, feed => if k = feed then some v else lookupFeed r feed

/-- Number of entries of the feed map with the given key. -/
def feedCount : List (Nat × ConnFeed) → Nat → Nat
  | [], _ => 0
  | (k, _) :: r, feed => (if k = feed then 1 else 0) + feedCount r feed

/-- `Conn.nextSeq`: `atomic.AddUint32(&c.seq, 1)` — adds one to the 32-bit
counter (wrapping) and returns the new value. The pair is
(new counter state, returned value). -/
def nextSeq (seq : Nat) : Nat × Nat :=
  let s := (seq + 1) % 4294967296
  (s, s)

/-- The connection's `seq` counter after `n` calls of `nextSeq`, starting
from the zero value it has when the `Conn` is created; the value returned
by the `n`-th call is `connSeqAfter n`. -/
def connSeqAfter : Nat → Nat
  | 0 => 0
  | n + 1 => (nextSeq (connSeqAfter n)).1

/-- One outbound wire frame: `sendMsg(seq, rseq, m)` as its arguments
(sequence number, response-sequence number, message). -/
structure Frame where
  seq : Nat
  rseq : Nat
  m : Msg
deriving DecidableEq

/-!
The receive loop (`Conn.receiving` of src/node/conn.go), one inbound raw
frame at a time.
-/

/-- Effect of the receive loop on one inbound raw frame: whether the frame
was fatal to the connection (`c.fatality` was called and the loop
returned), the frame handed to `c.handle`, and the response delivered to a
pending request, if any. -/
structure RecvStep where
  fatal : Bool
  handled : Option (Nat × Msg)
  responded : Option (Nat × Msg)
deriving DecidableEq

/-- The body of `Conn.receiving`'s `case raw, ok = <-receiveq` branch:
frames shorter than 9 bytes are fatal; then `seq` and `rseq` are read and
the rest is decoded, a decode failure being fatal; a frame whose `rseq`
matches a pending request is delivered as a response; anything else goes to
`c.handle`, whose error (`handleFails`) is fatal. `reqs` is the set of
pending request sequence numbers (`c.reqs`). -/
def receivingStep (reqs : List Nat) (handleFails : Bool) (raw : List Nat) :
    RecvStep :=
  if raw.length < 9 then ⟨true, none, none⟩
  else
    let seq := uint32le raw
    let r1 := raw.drop 4
    let rseq := uint32le r1
    let r2 := r1.drop 4
    match decodeMsg r2 with
    | none => ⟨true, none, none⟩
    | some m =>
      if reqs.contains rseq then ⟨false, none, some (rseq, m)⟩
      else ⟨handleFails, some (seq, m), none⟩

/-!
The request correlator (`Conn.sendRequest` of src/node/conn.go).
-/

/-- Direction of an operation on an unbuffered Go channel. -/
inductive ChanOp where
  | send
  | recv
deriving DecidableEq

/-- An unbuffered channel completes an operation only by pairing a send
with a receive. -/
def rendezvous : ChanOp → ChanOp → Bool
  | .send, .recv => true
  | .recv, .send => true
  | _, _ => false

/-- The operation `Conn.receiving` performs on a pending request's channel
to deliver a matching response: `rq <- m` — a send. -/
def receivingDeliverOp : ChanOp := .send

/-- The operation the first case of `Conn.sendRequest`'s `select` performs
on the request's own channel: `case rq <- reply:` — also a send (not a
receive of the delivered reply). -/
def sendRequestReplyCaseOp : ChanOp := .send

/-- How `Conn.sendRequest` resolves. -/
inductive ReqResult where
  | replyDelivered
  | timeout
  | closed
deriving DecidableEq

/-- The `select` of `Conn.sendRequest`: its reply case can fire only when
its channel operation rendezvouses with the receive loop's delivery
operation on the same unbuffered channel (`respReady`: a matching response
frame has reached the receive loop and it is blocked in its delivery
operation); otherwise the timer channel (`timedOut`) or the close channel
(`closedSig`) resolves the call; with none of the three ready the call
stays blocked (`none`). -/
def sendRequestSelect (respReady timedOut closedSig : Bool) :
    Option ReqResult :=
  if respReady && rendezvous receivingDeliverOp sendRequestReplyCaseOp then
    some .replyDelivered
  else if timedOut then some .timeout
  else if closedSig then some .closed
  else none

/-!
Subscription (local `Conn.Subscribe`, `Conn.Unsubscribe` and the inbound
`Conn.handleSub` of src/node/conn.go).
-/

/-- Errors a local caller of the connection can observe. -/
inductive ConnErr where
  | blankIdentifier
  | timeout
  | closed
  | peer (e : String)
  | invalidType
deriving DecidableEq

/-- Modelled from the spec: `(*Node).Share`, called by `Conn.Subscribe`, is
not under `src/`. Per §4.3 the subscribe operation is "rejected with
**Blank Identifier** if the feed key is the zero value", and the check is
not in `Conn.Subscribe`'s own body, so it lives in the `Share` call; for a
non-blank feed `Share` only ensures the node holds the feed and succeeds. -/
def nodeShare (feed : Nat) : Except ConnErr Unit :=
  if feed = 0 then .error .blankIdentifier else .ok ()

/-- Environment of one `Conn.Subscribe` call: the outcome of the blocking
`sendRequest(&msg.Sub{...})` exchange (the reply message, or `Timeout` /
`Closed` from the correlator). -/
structure SubEnv where
  reply : Except ConnErr Msg

/-- `Conn.Subscribe` of src/node/conn.go: return early if the feed is
already in `c.feeds`; call `c.n.Share(feed)` and surface its error; send a
`Sub` request and inspect the reply (`Ok` — success, `Err` — its text as
the error, anything else — an invalid-response-type error); on an error
return without touching the feed map (the source line `reutrn` is read as
`return`); otherwise create the feed's entry. Sending the request
allocates `nextSeq` and transmits the frame with response-sequence 0.
Result: (new state, error, frames sent). -/
def Subscribe (st : ConnState) (feed : Nat) (env : SubEnv) :
    ConnState × Option ConnErr × List Frame :=
  match lookupFeed st.feeds feed with
  | some _ => (st, none, [])
  | none =>
    match nodeShare feed with
    | .error e => (st, some e, [])
    | .ok _ =>
      let s := (nextSeq st.seq).2
      let st1 : ConnState := { feeds := st.feeds, seq := s }
      let sent : List Frame := [⟨s, 0, .sub feed⟩]
      match env.reply with
      | .error e => (st1, some e, sent)
      | .ok .ok => ({ st1 with feeds := (feed, ⟨[]⟩) :: st1.feeds }, none, sent)
      | .ok (.err e) => (st1, some (.peer e), sent)
      | .ok _ => (st1, some .invalidType, sent)

/-- `Conn.Unsubscribe` of src/node/conn.go: a no-op when the feed is not in
`c.feeds`; otherwise `cf.unholdSent(c.n)` detaches the feed's Filling
Operations (that method is not under `src/` and is modelled from the spec's
"detaches and cancels every Filling Operation owned by this connection for
that feed" as clearing `heads`), then the source executes
`delete(c.feeds, cf)` — the deletion key is the feed-state value `cf`, not
the public key `feed`, so no entry of the key-indexed feed map is removed —
and finally sends the fire-and-forget `Unsub` notice with response-sequence
0. Result: (new state, frames sent). -/
def Unsubscribe (st : ConnState) (feed : Nat) : ConnState × List Frame :=
  match lookupFeed st.feeds feed with
  | none => (st, [])
  | some _ =>
    let feeds1 := st.feeds.map (fun p => if p.1 = feed then (p.1, ⟨[]⟩) else p)
    let s := (nextSeq st.seq).2
    ({ feeds := feeds1, seq := s }, [⟨s, 0, .unsub feed⟩])

/-- Environment of one inbound `Conn.handleSub`: the result of the
`c.n.onSubscribeRemote` callback (`some` = rejection text) and whether the
node shares the feed (`c.n.fc` lookup). -/
structure HandleSubEnv where
  reject : Option String
  nodeHasFeed : Bool
deriving DecidableEq

/-- `Conn.handleSub` of src/node/conn.go (the source's use of `ok` before
its declaration and of `feed` for `sub.Feed` are read as the evident
intent): a blank feed key is answered with an Error reply; an
already-granted feed with an Ok reply and no state change; then the
node-level callback may reject, the node must share the feed, and only then
is the grant recorded and acknowledged. Every reply allocates `nextSeq` and
echoes the request's `seq` as its response-sequence. -/
def handleSub (st : ConnState) (seq : Nat) (feed : Nat)
    (env : HandleSubEnv) : ConnState × List Frame :=
  if feed = 0 then
    let s := (nextSeq st.seq).2
    ({ st with seq := s }, [⟨s, seq, .err "blank public key"⟩])
  else
    match lookupFeed st.feeds feed with
    | some _ =>
      let s := (nextSeq st.seq).2
      ({ st with seq := s }, [⟨s, seq, .ok⟩])
    | none =>
      match env.reject with
      | some r =>
        let s := (nextSeq st.seq).2
        ({ st with seq := s }, [⟨s, seq, .err r⟩])
      | none =>
        if env.nodeHasFeed = false then
          let s := (nextSeq st.seq).2
          ({ st with seq := s }, [⟨s, seq, .err "not share the feed"⟩])
        else
          let s := (nextSeq st.seq).2
          ({ feeds := (feed, ⟨[]⟩) :: st.feeds, seq := s }, [⟨s, seq, .ok⟩])

/-!
Root ingestion (`Conn.handleRoot` of src/node/conn.go).
-/

/-- The handle the skyobject container returns for an accepted Root:
its head (`pub`, `nonce`), its sequence number and whether the node
already holds it in full. -/
structure RootHandle where
  pub : Nat
  nonce : Nat
  seq : Nat
  isFull : Bool
deriving DecidableEq

/-- Answer of `c.n.c.LastRoot(r.Pub, r.Nonce)`: a stored latest Root for
the head, `data.ErrNotFound`, or another database failure. -/
inductive LastRootRes where
  | found (r : RootHandle)
  | notFound
  | dbFailure
deriving DecidableEq

/-- Environment of one inbound `Conn.handleRoot`: the result of
`c.n.c.ReceivedRoot(root.Sig, root.Value)` (`none` = signature/decoding
rejection) and of the `LastRoot` lookup for the received Root's head. -/
structure RootEnv where
  receivedRoot : Option RootHandle
  lastRoot : LastRootRes
deriving DecidableEq

/-- Modelled from the spec: `Conn.addToFiller` is not under `src/`; per
§4.4–4.5 it registers the Root for filling — a Filling Operation for the
Root's head is recorded on this connection's feed state. -/
def addToFiller (st : ConnState) (feed : Nat) (r : RootHandle) :
    ConnState × Option RootHandle :=
  ({ st with
      feeds := st.feeds.map
        (fun p => if p.1 = feed then (p.1, ⟨r.nonce :: p.2.heads⟩) else p) },
    some r)

/-- `Conn.handleRoot` of src/node/conn.go: drop when not subscribed to the
announced feed; drop when `ReceivedRoot` rejects the value; drop when the
Root is already full; on a `LastRoot` failure other than not-found, drop;
drop when a stored latest Root exists and the received Root's sequence
number does not exceed it; otherwise hand the Root to the filler. Result:
(new state, the Root registered for filling, if any). -/
def handleRoot (st : ConnState) (rootFeed : Nat) (env : RootEnv) :
    ConnState × Option RootHandle :=
  match lookupFeed st.feeds rootFeed with
  | none => (st, none)
  | some _ =>
    match env.receivedRoot with
    | none => (st, none)
    | some r =>
      if r.isFull then (st, none)
      else
        match env.lastRoot with
        | .dbFailure => (st, none)
        | .found last =>
          if r.seq ≤ last.seq then (st, none)
          else addToFiller st rootFeed r
        | .notFound => addToFiller st rootFeed r

/-!
Object requests (`Conn.handleRqObject` of src/node/conn.go).
-/

/-- Answer of the object store `c.n.c.Get(rq.Key, 0)`. -/
inductive GetRes where
  | found (val : List Nat)
  | notFound
  | dbFailure
deriving DecidableEq

/-- Effect of one inbound `Conn.handleRqObject`: the frames sent in reply
and whether the lookup failure was fatal. -/
structure RqObjectStep where
  sent : List Frame
  fatal : Bool
deriving DecidableEq

/-- `Conn.handleRqObject` of src/node/conn.go (its `val` for `object` is
read as the evident intent): a storage failure other than not-found is
fatal (`c.n.Fatal`); a key not found locally is recorded for a later push
and answered with no message at all; the found branch of the source sends
nothing either (unimplemented, it just returns). -/
def handleRqObject (get : GetRes) : RqObjectStep :=
  match get with
  | .dbFailure => ⟨[], true⟩
  | .notFound => ⟨[], false⟩
  | .found _ => ⟨[], false⟩

/-!
The client's subscription list (`(*Client).Feeds` of src/unnamed/part_000).
-/

/-- Go's builtin `copy(dst, src)`: copies `min (len dst) (len src)`
elements of `src` over the front of `dst` and leaves the rest of `dst`. -/
def goCopy (dst src : List Nat) : List Nat :=
  src.take dst.length ++ dst.drop src.length

/-- `(*Client).Feeds` of src/unnamed/part_000: an early return when the
subscription slice is empty; otherwise
`feeds = make([]cipher.PubKey, 0, len(c.feeds))` — a slice of length 0 —
followed by `copy(feeds, c.feeds)`. -/
def clientFeeds (feeds : List Nat) : List Nat :=
  if feeds.length = 0 then []
  else goCopy [] feeds

/-!
Helper lemmas.
-/

/-- A key that `lookupFeed` does not find has no entry at all. -/
theorem lookupFeed_none_count (l : List (Nat × ConnFeed)) (feed : Nat)
    (h : lookupFeed l feed = none) : feedCount l feed = 0 := by
  induction l with
  | nil => rfl
  | cons p r ih =>
    obtain ⟨k, v⟩ := p
    by_cases hk : k = feed
    · rw [lookupFeed, if_pos hk] at h
      exact absurd h (by simp)
    · rw [lookupFeed, if_neg hk] at h
      rw [feedCount, if_neg hk, ih h]

/-- The `seq` counter after `n` allocations is `n` modulo `2^32`. -/
theorem connSeqAfter_eq (n : Nat) : connSeqAfter n = n % 4294967296 := by
  induction n with
  | zero => rfl
  | succ k ih =>
    rw [connSeqAfter, ih, nextSeq, Nat.add_mod k 1 4294967296]

/-!
Claim theorems.
-/

/-- C1: the claim says a response frame dispatched before the timeout makes
`sendRequest` return its payload. In the source both the receive loop's
delivery (`rq <- m`, line 449) and the reply case of `sendRequest`'s
`select` (`case rq <- reply:`, line 514) are SENDS on the same unbuffered
channel, which never rendezvous; so even with the matching response at the
channel the call stays blocked until the timer or the close signal fires,
and the reply outcome is unreachable. -/
theorem sendRequest_reply_never_delivered :
    rendezvous receivingDeliverOp sendRequestReplyCaseOp = false ∧
    sendRequestSelect true false false = none ∧
    sendRequestSelect true true false = some ReqResult.timeout ∧
    sendRequestSelect true false true = some ReqResult.closed := by
  decide

/-- C2: the claim says decoding `encodeMsg seq rseq m` yields back
`(seq, rseq, m)`. In the source `PutUint32(raw[:4], rseq)` writes `rseq`
over bytes 0–3 (where `seq` was just written) instead of bytes 4–7, so at
`seq = 1`, `rseq = 2`, `m = Ok` the frame decodes to `(2, 0, Ok)`. -/
theorem encodeMsg_decodeRaw_mismatch :
    decodeRaw (encodeMsg 1 2 Msg.ok) = some (2, 0, Msg.ok) ∧
    decodeRaw (encodeMsg 1 2 Msg.ok) ≠ some (1, 2, Msg.ok) := by
  decide

/-- C4: the claim says that after `Unsubscribe` on a subscribed feed the
feed map no longer contains the feed. In the source `delete(c.feeds, cf)`
deletes with the feed-state value as the key instead of the feed's public
key, so the entry survives: on the state subscribed to feed 7 with one
filling head, `Unsubscribe 7` detaches the fills and sends the single
`Unsub` notice with response-sequence 0, but feed 7 is still mapped. -/
theorem Unsubscribe_keeps_feed_entry :
    Unsubscribe ⟨[(7, ⟨[3]⟩)], 0⟩ 7 =
      (⟨[(7, ⟨[]⟩)], 1⟩, [⟨1, 0, .unsub 7⟩]) ∧
    lookupFeed (Unsubscribe ⟨[(7, ⟨[3]⟩)], 0⟩ 7).1.feeds 7 = some ⟨[]⟩ := by
  decide

/-- C6 counterexample: the sequence numbers returned by successive
`nextSeq` calls are not strictly increasing and are reused: the call after
the one returning `2^32 - 1` returns `0`, and call `2^32 + 1` returns the
same value as call `1`. -/
theorem nextSeq_wraps :
    ¬ (connSeqAfter 4294967295 < connSeqAfter 4294967296) ∧
    connSeqAfter 4294967297 = connSeqAfter 1 := by
  rw [connSeqAfter_eq, connSeqAfter_eq, connSeqAfter_eq, connSeqAfter_eq]
  norm_num

/-- C6 (amended): the values returned by successive `nextSeq` calls are
strictly increasing and pairwise distinct as long as fewer than `2^32`
allocations have been made on the connection; the counter is the call
count modulo `2^32`, so it wraps at the `2^32`-th call. -/
theorem nextSeq_strictly_increasing_before_wrap (m n : Nat)
    (_hm : 0 < m) (hmn : m < n) (hn : n < 4294967296) :
    connSeqAfter m < connSeqAfter n ∧ connSeqAfter m ≠ connSeqAfter n := by
  rw [connSeqAfter_eq, connSeqAfter_eq,
    Nat.mod_eq_of_lt (lt_trans hmn hn), Nat.mod_eq_of_lt hn]
  exact ⟨hmn, Nat.ne_of_lt hmn⟩

/-- C6 witness: calls 1 and 2 return 1 and 2. -/
theorem nextSeq_strictly_increasing_before_wrap_witness :
    0 < 1 ∧ 1 < 2 ∧ 2 < 4294967296 ∧
    (connSeqAfter 1 < connSeqAfter 2 ∧ connSeqAfter 1 ≠ connSeqAfter 2) :=
  ⟨by decide, by decide, by norm_num,
    nextSeq_strictly_increasing_before_wrap 1 2 (by decide) (by decide)
      (by norm_num)⟩

/-- C10: the claim says `Client.Feeds` returns exactly the subscribed feed
keys. In the source `feeds = make([]cipher.PubKey, 0, len(c.feeds))`
creates a slice of length 0 and `copy(feeds, c.feeds)` therefore copies
zero elements, so with one subscription (feed 7) the call returns the
empty list. -/
theorem clientFeeds_always_empty :
    clientFeeds [7] = [] ∧ clientFeeds [7] ≠ [7] := by
  decide

/-- C3: an inbound Root announcement on a subscribed feed whose received
Root has a sequence number at most that of the locally stored latest Root
for the same head is dropped by `handleRoot`: no Filling Operation is
registered and the connection state is unchanged. -/
theorem handleRoot_stale_drop (st : ConnState) (rootFeed : Nat)
    (env : RootEnv) (cf : ConnFeed) (r last : RootHandle)
    (hsub : lookupFeed st.feeds rootFeed = some cf)
    (hrec : env.receivedRoot = some r)
    (hlast : env.lastRoot = .found last)
    (hstale : r.seq ≤ last.seq) :
    handleRoot st rootFeed env = (st, none) := by
  unfold handleRoot
  rw [hsub, hrec, hlast]
  by_cases hf : r.isFull
  · simp [hf]
  · simp [hf, hstale]

/-- C3 witness: a connection subscribed to feed 7, announced Root with
sequence 3 against a stored latest Root with sequence 5. -/
theorem handleRoot_stale_drop_witness :
    lookupFeed [(7, ⟨[]⟩)] 7 = some ⟨[]⟩ ∧
    (3 : Nat) ≤ 5 ∧
    handleRoot ⟨[(7, ⟨[]⟩)], 0⟩ 7
        ⟨some ⟨7, 1, 3, false⟩, .found ⟨7, 1, 5, false⟩⟩ =
      (⟨[(7, ⟨[]⟩)], 0⟩, none) :=
  ⟨by decide, by decide,
    handleRoot_stale_drop ⟨[(7, ⟨[]⟩)], 0⟩ 7
      ⟨some ⟨7, 1, 3, false⟩, .found ⟨7, 1, 5, false⟩⟩
      ⟨[]⟩ ⟨7, 1, 3, false⟩ ⟨7, 1, 5, false⟩ (by decide) rfl rfl (by decide)⟩

/-- C5: a `Conn.Subscribe` call with the blank (zero) feed key, on a
connection not already holding an entry for it, is rejected with the
Blank Identifier error, creates no Feed State and sends no frame. The
rejection comes from the `Share` call, modelled from the spec. -/
theorem Subscribe_blank_rejected (st : ConnState) (env : SubEnv)
    (h : lookupFeed st.feeds 0 = none) :
    Subscribe st 0 env = (st, some .blankIdentifier, []) := by
  unfold Subscribe
  rw [h]
  rfl

/-- C5 witness: a fresh connection with no feeds. -/
theorem Subscribe_blank_rejected_witness :
    lookupFeed ([] : List (Nat × ConnFeed)) 0 = none ∧
    Subscribe ⟨[], 0⟩ 0 ⟨.ok .ok⟩ = (⟨[], 0⟩, some .blankIdentifier, []) :=
  ⟨rfl, Subscribe_blank_rejected ⟨[], 0⟩ ⟨.ok .ok⟩ rfl⟩

/-- C7: subscribing twice to the same feed is idempotent. Locally: a first
`Subscribe` of an unsubscribed, non-blank feed whose request is answered
`Ok` succeeds and leaves exactly one entry for the feed, and a second
`Subscribe` returns success immediately, sends nothing and changes
nothing. Inbound: a `Sub` for an already-granted feed is answered `Ok`
without touching the feed map. -/
theorem subscribe_idempotent :
    (∀ (st : ConnState) (feed : Nat) (env env2 : SubEnv),
      feed ≠ 0 → lookupFeed st.feeds feed = none → env.reply = .ok .ok →
      (Subscribe st feed env).2.1 = none ∧
      feedCount (Subscribe st feed env).1.feeds feed = 1 ∧
      Subscribe (Subscribe st feed env).1 feed env2 =
        ((Subscribe st feed env).1, none, [])) ∧
    (∀ (st : ConnState) (seq feed : Nat) (env : HandleSubEnv) (cf : ConnFeed),
      feed ≠ 0 → lookupFeed st.feeds feed = some cf →
      (handleSub st seq feed env).1.feeds = st.feeds ∧
      (handleSub st seq feed env).2 = [⟨(nextSeq st.seq).2, seq, .ok⟩]) := by
  constructor
  · intro st feed env env2 hfeed hnone hok
    have hshare : nodeShare feed = .ok () := by
      rw [nodeShare, if_neg hfeed]
    have hsub : Subscribe st feed env =
        (⟨(feed, ⟨[]⟩) :: st.feeds, (nextSeq st.seq).2⟩, none,
          [⟨(nextSeq st.seq).2, 0, .sub feed⟩]) := by
      unfold Subscribe
      rw [hnone, hshare, hok]
    refine ⟨by rw [hsub], ?_, ?_⟩
    · rw [hsub]
      show (if feed = feed then 1 else 0) + feedCount st.feeds feed = 1
      rw [if_pos rfl, lookupFeed_none_count st.feeds feed hnone]
    · rw [hsub]
      show Subscribe ⟨(feed, ⟨[]⟩) :: st.feeds, (nextSeq st.seq).2⟩ feed env2 = _
      unfold Subscribe
      rw [show lookupFeed ((feed, ⟨[]⟩) :: st.feeds) feed = some ⟨[]⟩ by
        rw [lookupFeed, if_pos rfl]]
  · intro st seq feed env cf hfeed hsome
    unfold handleSub
    rw [if_neg hfeed, hsome]
    exact ⟨rfl, rfl⟩

/-- C7 witness: feed 7, first subscribe on a fresh connection answered Ok,
then a second local subscribe; and an inbound Sub for the granted feed. -/
theorem subscribe_idempotent_witness :
    ((7 : Nat) ≠ 0 ∧
      (Subscribe ⟨[], 0⟩ 7 ⟨.ok .ok⟩).2.1 = none ∧
      feedCount (Subscribe ⟨[], 0⟩ 7 ⟨.ok .ok⟩).1.feeds 7 = 1 ∧
      Subscribe (Subscribe ⟨[], 0⟩ 7 ⟨.ok .ok⟩).1 7 ⟨.ok .ok⟩ =
        ((Subscribe ⟨[], 0⟩ 7 ⟨.ok .ok⟩).1, none, [])) ∧
    ((handleSub ⟨[(7, ⟨[]⟩)], 0⟩ 5 7 ⟨none, true⟩).1.feeds = [(7, ⟨[]⟩)] ∧
      (handleSub ⟨[(7, ⟨[]⟩)], 0⟩ 5 7 ⟨none, true⟩).2 = [⟨1, 5, .ok⟩]) :=
  ⟨⟨by decide,
      subscribe_idempotent.1 ⟨[], 0⟩ 7 ⟨.ok .ok⟩ ⟨.ok .ok⟩
        (by decide) rfl rfl⟩,
    subscribe_idempotent.2 ⟨[(7, ⟨[]⟩)], 0⟩ 5 7 ⟨none, true⟩ ⟨[]⟩
      (by decide) rfl⟩

/-- C8: an inbound raw frame of fewer than 9 bytes, and any frame whose
message payload (the bytes after the 8-byte header) fails to decode, is
fatal to the connection and reaches no message handler. -/
theorem receiving_malformed_fatal :
    (∀ (reqs : List Nat) (hf : Bool) (raw : List Nat), raw.length < 9 →
      receivingStep reqs hf raw = ⟨true, none, none⟩) ∧
    (∀ (reqs : List Nat) (hf : Bool) (raw : List Nat),
      decodeMsg (raw.drop 8) = none →
      receivingStep reqs hf raw = ⟨true, none, none⟩) := by
  constructor
  · intro reqs hf raw h
    unfold receivingStep
    rw [if_pos h]
  · intro reqs hf raw h
    by_cases hl : raw.length < 9
    · unfold receivingStep
      rw [if_pos hl]
    · have hdd : decodeMsg ((raw.drop 4).drop 4) = none := by
        rw [List.drop_drop]
        exact h
      simp only [receivingStep, if_neg hl, hdd]

/-- C8 witness: a frame of length 5, and a 9-byte frame whose payload is
the unknown tag 255 (with its response-sequence even matching a pending
request). -/
theorem receiving_malformed_fatal_witness :
    ([0, 0, 0, 0, 0] : List Nat).length < 9 ∧
    receivingStep [] false [0, 0, 0, 0, 0] = ⟨true, none, none⟩ ∧
    decodeMsg (([0, 0, 0, 0, 2, 0, 0, 0, 255] : List Nat).drop 8) = none ∧
    receivingStep [2] true [0, 0, 0, 0, 2, 0, 0, 0, 255] =
      ⟨true, none, none⟩ :=
  ⟨by decide,
    receiving_malformed_fatal.1 [] false [0, 0, 0, 0, 0] (by decide),
    by decide,
    receiving_malformed_fatal.2 [2] true [0, 0, 0, 0, 2, 0, 0, 0, 255]
      (by decide)⟩

/-- C9: an inbound `RqObject` whose key the store reports as not found is
answered with no message at all and is not fatal; among the store's
possible answers, only a failure other than not-found is fatal. -/
theorem handleRqObject_not_found_silent :
    handleRqObject .notFound = ⟨[], false⟩ ∧
    (∀ g : GetRes, (handleRqObject g).fatal = true ↔ g = .dbFailure) := by
  refine ⟨rfl, ?_⟩
  intro g
  cases g <;> simp [handleRqObject]

end Cxo
